import Mathlib

/-!
Verification of the bounded-concurrency business-website audit pipeline
(`complete_audit_script.py`).  The Python code is shallowly embedded:
strings are modelled as lists of characters (`Str`), dictionaries as
association lists or structures mirroring the dict literals of the source,
and the browser / clock environment as an explicit `Env` record of oracles.
All definitions are executable so concrete runs can be evaluated.
-/

/-- Python strings are modelled as lists of characters. -/
abbrev Str := List Char

/-- Model of Python `str.lower()` (ASCII case folding suffices here). -/
def lowerL (l : Str) : Str := l.map Char.toLower

/-- Model of Python `str.strip()`: removes leading and trailing whitespace. -/
def stripL (l : Str) : Str :=
  ((l.dropWhile Char.isWhitespace).reverse.dropWhile Char.isWhitespace).reverse

/-- Boolean test that `p` is a prefix of `s`, modelling Python `startswith`
and the anchored regexes `^(www\.)`, `^(http://|https://)` of the source. -/
def isPre : Str → Str → Bool
  | [], _ => true
  | _ :: _, [] => false
  | p :: ps, c :: cs => p == c && isPre ps cs

/-- Boolean substring test, modelling Python `in` on strings. -/
def containsL (s pat : Str) : Bool :=
  match s with
  | [] => isPre pat []
  | _ :: t => isPre pat s || containsL t pat

/-- Label after the last dot, modelling Python `netloc.split('.')[-1]`. -/
def lastDotLabel (l : Str) : Str := (l.reverse.takeWhile (fun c => c != '.')).reverse

/-- Model of Python `tld.isalpha()` (true only on nonempty all-letter strings). -/
def isAlphaStr (l : Str) : Bool := !l.isEmpty && l.all Char.isAlpha

/-- Placeholder tokens rejected by `clean_url` (source line 66). -/
def cleanUrlPlaceholders : List Str :=
  ["n/a".data, "none".data, "null".data, "undefined".data, "".data]

/-- Characters at which `urlparse` ends the network-location component. -/
def netlocStop (c : Char) : Bool := c == '/' || c == '?' || c == '#'

/-- Source line 74: `re.sub(r'^(www\.)', '', url, flags=re.IGNORECASE)` —
the anchored regex removes one leading `www.`, case-insensitively. -/
def cu_strip_www (u : Str) : Str :=
  if isPre "www.".data (lowerL u) then u.drop 4 else u

/-- Source line 75: `re.sub(r'^(http://|https://)', '', url, re.IGNORECASE)`
— the anchored regex removes one leading explicit scheme (the alternation
tries `http://` first), case-insensitively. -/
def cu_strip_scheme (u : Str) : Str :=
  if isPre "http://".data (lowerL u) then u.drop 7
  else if isPre "https://".data (lowerL u) then u.drop 8
  else u

/-- Source lines 78-79: prefix `https://` unless the string already starts
with an explicit scheme (this check is case-sensitive in the source). -/
def cu_add_scheme (u : Str) : Str :=
  if isPre "http://".data u || isPre "https://".data u then u
  else "https://".data ++ u

/-- Network location of the built URL, modelling `urlparse(url).netloc`
(source line 83): the string always carries an explicit `http://` or
`https://` scheme at this point, and netloc is the segment after it up to
`/`, `?` or `#`. -/
def cu_netloc (u : Str) : Str :=
  (if isPre "https://".data u then u.drop 8 else u.drop 7).takeWhile
    (fun c => !netlocStop c)

/-- Source lines 82-94: the `urlparse`-based validation — nonempty netloc
containing a dot, whose final label is alphabetic of length at least 2. -/
def cu_validate (u3 : Str) : Option Str :=
  if cu_netloc u3 = [] then none
  else if ¬ (cu_netloc u3).contains '.' then none
  else if (lastDotLabel (cu_netloc u3)).length < 2 then none
  else if ¬ isAlphaStr (lastDotLabel (cu_netloc u3)) then none
  else some u3

/-- Shallow embedding of `clean_url` (source lines 58-94). -/
def clean_url_core (url : Str) : Option Str :=
  if url = [] then none
  else if lowerL (stripL url) ∈ cleanUrlPlaceholders then none
  else if containsL (lowerL (stripL url)) "mailto:".data then none
  else cu_validate (cu_add_scheme (cu_strip_scheme (cu_strip_www (stripL url))))

/-- String-typed wrapper around `clean_url_core`. -/
def clean_url (url : String) : Option String :=
  (clean_url_core url.data).map (fun l => ⟨l⟩)

/-- Banker's rounding to an integer, modelling Python's builtin `round`
(round-half-to-even). -/
def roundHalfEven (q : ℚ) : ℤ :=
  if q - ⌊q⌋ < 1/2 then ⌊q⌋
  else if 1/2 < q - ⌊q⌋ then ⌊q⌋ + 1
  else if ⌊q⌋ % 2 = 0 then ⌊q⌋ else ⌊q⌋ + 1

/-- Model of Python `round(x, 1)`: round to one decimal place. -/
def pyRound1 (q : ℚ) : ℚ := (roundHalfEven (q * 10) : ℚ) / 10

/-- Shallow embedding of `calculate_overall_score` (source lines 690-702):
weighted sum of the six dimension sub-scores, rounded to one decimal. -/
def calculate_overall_score (mobile design security performance content seo : ℚ) : ℚ :=
  pyRound1 (mobile * (25/100) + design * (20/100) + security * (15/100) +
            performance * (15/100) + content * (15/100) + seo * (10/100))

/-- Result of `analyze_security` (source lines 170-217). -/
structure SecurityAnalysis where
  has_ssl : Bool
  score : ℤ
  issues : List String
deriving DecidableEq

/-- Shallow embedding of `analyze_security` (source lines 170-217).  The
in-page mixed-content probe is browser I/O and enters as the boolean
`has_mixed_content`; when the probe raises, the `except: pass` of the source
leaves the score unpenalized, which the boolean also covers. -/
def analyze_security (url : String) (has_mixed_content : Bool) : SecurityAnalysis :=
  let has_ssl := isPre "https://".data url.data
  let score : ℤ := (if has_ssl then 10 else 0) - (if has_mixed_content then 3 else 0)
  { has_ssl := has_ssl, score := max 0 score,
    issues := if has_ssl then [] else ["No SSL certificate"] }

/-- Shape of the website-quality dict built by `check_website_quality`
(source lines 131-163) and by the three `create_*_analysis` fallbacks.
`last_updated`, `load_time` and `page_size` are absent from the fallback
dicts (the source reads them back with `.get(..., 'Unknown')`), hence the
`Option` types with `none` for "key absent". -/
structure WebsiteAnalysis where
  accessible : Bool
  mobile_responsive : Bool
  mobile_score : ℕ
  modern_design : Bool
  design_score : ℕ
  has_ssl : Bool
  security_score : ℕ
  performance_score : ℕ
  content_score : ℕ
  seo_score : ℕ
  technology_stack : String
  overall_score : ℚ
  last_updated : Option String
  load_time : Option ℚ
  page_size : Option String
  error : Option String
  detailed_issues : String
deriving DecidableEq

/-- Shallow embedding of `create_failed_analysis` (source lines 715-732):
the all-zero inaccessible report, tagged with the HTTP status or
"No response". -/
def create_failed_analysis (response_status : Option ℕ) : WebsiteAnalysis :=
  { accessible := false, mobile_responsive := false, mobile_score := 0,
    modern_design := false, design_score := 0, has_ssl := false,
    security_score := 0, performance_score := 0, content_score := 0,
    seo_score := 0, technology_stack := "Unknown", overall_score := 0,
    last_updated := none, load_time := none, page_size := none,
    error := some ("HTTP " ++ (match response_status with
      | some s => toString s
      | none => "No response")),
    detailed_issues := "Website not accessible" }

/-- Business input record: the raw column/value mapping of one input row
(Python dict of arbitrary columns). -/
abbrev BusinessData := List (String × String)

/-- Model of Python `dict.get(key, default)` on a business record. -/
def bget (bd : BusinessData) (key dflt : String) : String :=
  ((bd.find? (fun kv => kv.1 == key)).map Prod.snd).getD dflt

/-- Resolved column mapping produced by `detect_columns`
(source lines 1076-1128), as consumed by `process_business`. -/
structure ColumnMapping where
  business_name : String
  website : Option String
  city : Option String

/-- Result dict of `search_google_maps` (source lines 959-966). -/
structure MapsResult where
  found : Bool
  appears_active : Bool
  confidence : String
  google_maps_url : Option String
  result_count : ℕ
  is_closed : Bool
deriving DecidableEq

/-- Closure phrases scanned for in the Maps result page text
(source lines 911-917). -/
def closedIndicators : List Str :=
  ["permanently closed".data, "temporarily closed".data, "closed until".data,
   "no longer in business".data, "out of business".data]

/-- Active-business cues scanned for in the Maps result page text
(source lines 924-932). -/
def activeIndicators : List Str :=
  ["open now".data, "closes at".data, "opens at".data, "hours".data,
   "phone".data, "website".data, "directions".data]

/-- Shallow embedding of the in-page evaluation of `search_google_maps`
(source lines 900-966): given the number of business result elements and
the rendered page text, derive the presence result.  The JS lowercases
`document.body.innerText` before the substring scans; `pageUrl` is the
browser URL recorded when a result was found.  The missing `resultCount`
and `isClosed` keys of the empty-result early return are read back with
`.get(..., 0)` / `.get(..., False)` defaults in the source. -/
def evalMapsPage (resultCount : ℕ) (pageText : Str) (pageUrl : String) : MapsResult :=
  if resultCount = 0 then
    { found := false, appears_active := false, confidence := "none",
      google_maps_url := none, result_count := 0, is_closed := false }
  else
    let t := lowerL pageText
    let isClosed := closedIndicators.any (fun ind => containsL t ind)
    let hasActive := activeIndicators.any (fun ind => containsL t ind)
    let conf :=
      if resultCount == 1 && hasActive then "high"
      else if resultCount ≤ 3 && hasActive then "medium"
      else "low"
    { found := true, appears_active := !isClosed && hasActive, confidence := conf,
      google_maps_url := some pageUrl, result_count := resultCount,
      is_closed := isClosed }

/-- The social/listing platform pattern table (source lines 36-55); each
regex has the form `.*domain.*` with IGNORECASE, i.e. a case-insensitive
substring match on the given literal. -/
def SOCIAL_MEDIA_PATTERNS : List Str :=
  ["linkedin.com".data, "facebook.com".data, "twitter.com".data, "x.com".data,
   "instagram.com".data, "youtube.com".data, "tiktok.com".data,
   "pinterest.com".data, "snapchat.com".data, "telegram.me".data,
   "whatsapp.com".data, "yelp.com".data, "foursquare.com".data,
   "maps.google.com".data, "goo.gl/maps".data, "nextdoor.com".data,
   "discord.com".data, "reddit.com".data]

/-- Modelled from the spec: `is_social_media_url` is called by
`process_business` (source line 997) but its definition is missing from the
repository; only its pattern table `SOCIAL_MEDIA_PATTERNS` (source lines
36-55) and its caller exist.  Per spec §4.2 the Domain Classifier "matches
host against a fixed set of known social/listing platform domains
(case-insensitive, substring match is acceptable)", exactly what the
`.*domain.*` IGNORECASE regexes of the table implement. -/
def is_social_media_url (url : String) : Bool :=
  SOCIAL_MEDIA_PATTERNS.any (fun p => containsL (lowerL url.data) p)

/-- Score-based priority derivation of `determine_qualification`
(source lines 797-811): base priority and reason from the composite score. -/
def base_priority (overall_score : ℚ) : String × String :=
  if overall_score ≤ 4 then ("HIGH", "Multiple critical website issues")
  else if overall_score ≤ 6 then ("MEDIUM", "Several website improvements needed")
  else if overall_score ≤ 7.5 then ("LOW", "Minor website improvements recommended")
  else ("VERY_LOW", "Website in good condition, minimal improvements needed")

/-- Sequential priority escalations of `determine_qualification`
(source lines 813-827): missing SSL sets HIGH; not mobile-responsive sets
MEDIUM unless already HIGH; mobile sub-score at most 3 sets HIGH. -/
def escalate_priority (wa : WebsiteAnalysis) (p : String) : String :=
  let p1 := if !wa.has_ssl then "HIGH" else p
  let p2 := if !wa.mobile_responsive then (if p1 ≠ "HIGH" then "MEDIUM" else p1) else p1
  if wa.mobile_score ≤ 3 then "HIGH" else p2

/-- Critical-issue strings accumulated alongside the escalations
(source lines 814-827). -/
def critical_issues_list (wa : WebsiteAnalysis) : List String :=
  (if !wa.has_ssl then ["No SSL certificate"] else []) ++
  (if !wa.mobile_responsive then ["Not mobile responsive"] else []) ++
  (if wa.mobile_score ≤ 3 then ["Poor mobile experience"] else [])

/-- Fields of the qualified-business result dict built by
`determine_qualification` (source lines 831-856), in source order after the
spread of the input record. -/
structure QualifiedFields where
  business_data : BusinessData
  website_cleaned : Option String
  overall_score : ℚ
  mobile_score : ℕ
  design_score : ℕ
  security_score : ℕ
  performance_score : ℕ
  content_score : ℕ
  seo_score : ℕ
  website_accessible : Bool
  mobile_responsive : Bool
  modern_design : Bool
  has_ssl : Bool
  technology_stack : String
  last_updated : String
  load_time : Option ℚ
  google_maps_found : Bool
  appears_active : Bool
  priority : String
  qualification_reason : String
  detailed_issues : String
  critical_issues : String
  status : String
  analysis_date : String
deriving DecidableEq

/-- The four result-dict shapes `determine_qualification` can return
(source lines 782, 786-793, 831-856, 861-867); each constructor lists the
keys the source adds to the spread input record. -/
inductive DQResult
  | closedRes (business_data : BusinessData) (status reason : String)
  | needsWebsite (business_data : BusinessData) (overall_score : ℚ)
      (priority status qualification_reason detailed_issues : String)
  | qualifiedRes (fields : QualifiedFields)
  | lowPriorityRes (business_data : BusinessData) (overall_score : ℚ)
      (priority status qualification_reason : String)
deriving DecidableEq

/-- Priority field of a result dict, when present. -/
def DQResult.priorityOf : DQResult → Option String
  | DQResult.closedRes _ _ _ => none
  | DQResult.needsWebsite _ _ p _ _ _ => some p
  | DQResult.qualifiedRes f => some f.priority
  | DQResult.lowPriorityRes _ _ p _ _ => some p

/-- Critical-issues field of a result dict, when present. -/
def DQResult.criticalIssuesOf : DQResult → Option String
  | DQResult.qualifiedRes f => some f.critical_issues
  | _ => none

/-- Analysis-date field of a result dict, when present. -/
def DQResult.analysisDateOf : DQResult → Option String
  | DQResult.qualifiedRes f => some f.analysis_date
  | _ => none

/-- The qualified-business result dict of `determine_qualification`
(source lines 831-856) as a function of the classifier's inputs and the
clock; the local `priority` and `reason` of the source are
`escalate_priority` over `base_priority`. -/
def qualFields (wa : WebsiteAnalysis) (mr : MapsResult) (bd : BusinessData)
    (now : String) : QualifiedFields :=
  { business_data := bd
    website_cleaned := clean_url (bget bd "website" "")
    overall_score := wa.overall_score
    mobile_score := wa.mobile_score
    design_score := wa.design_score
    security_score := wa.security_score
    performance_score := wa.performance_score
    content_score := wa.content_score
    seo_score := wa.seo_score
    website_accessible := wa.accessible
    mobile_responsive := wa.mobile_responsive
    modern_design := wa.modern_design
    has_ssl := wa.has_ssl
    technology_stack := wa.technology_stack
    last_updated := wa.last_updated.getD "Unknown"
    load_time := wa.load_time
    google_maps_found := mr.found
    appears_active := mr.appears_active
    priority := escalate_priority wa (base_priority wa.overall_score).1
    qualification_reason := (base_priority wa.overall_score).2
    detailed_issues := wa.detailed_issues
    critical_issues :=
      if (critical_issues_list wa).isEmpty then "None"
      else String.intercalate "; " (critical_issues_list wa)
    status := "qualified"
    analysis_date := now }

/-- Shallow embedding of `determine_qualification` (source lines 773-868).
The source stamps `datetime.now()` into the qualified result as
`analysis_date`; the clock enters here as the explicit argument `now`.
`last_updated` / `load_time` are read with `.get(..., 'Unknown')`; the
`Option ℚ` value `none` for `load_time` stands for that 'Unknown' default. -/
def determine_qualification (wa : WebsiteAnalysis) (mr : MapsResult)
    (bd : BusinessData) (now : String) : Option DQResult × String :=
  if !wa.accessible && !mr.found then (none, "not_accessible")
  else if mr.found && !mr.appears_active then
    (some (DQResult.closedRes bd "closed" "Appears closed on Google Maps"), "closed")
  else if !wa.accessible && mr.found && mr.appears_active then
    (some (DQResult.needsWebsite bd 0 "HIGH" "needs_website"
        "Active business without functional website" "No functional website found"),
     "high_priority")
  else if escalate_priority wa (base_priority wa.overall_score).1 = "HIGH" ∨
      escalate_priority wa (base_priority wa.overall_score).1 = "MEDIUM" ∨
      wa.overall_score ≤ 7 then
    (some (DQResult.qualifiedRes (qualFields wa mr bd now)), "qualified")
  else
    (some (DQResult.lowPriorityRes bd wa.overall_score
      (escalate_priority wa (base_priority wa.overall_score).1) "low_priority"
      (base_priority wa.overall_score).2), "low_priority")

/-- Effectful collaborators of one probe slot, passed explicitly: the Maps
presence search, the website quality scorer (keyed by the cleaned URL), and
the wall clock read by `determine_qualification`. -/
structure Env where
  maps : BusinessData → MapsResult
  quality : String → WebsiteAnalysis
  now : String

/-- Shallow embedding of `process_business` (source lines 978-1021): name
validation, URL cleaning, the social-profile filter, then presence search,
quality analysis (or the all-zero fallback when no usable URL) and
qualification. -/
def process_business (env : Env) (cm : ColumnMapping) (bd : BusinessData) :
    Option DQResult × String :=
  let business_name : Str := stripL (bget bd cm.business_name "").data
  let website : String := ⟨stripL (bget bd (cm.website.getD "") "").data⟩
  if business_name = [] ∨
      lowerL business_name ∈ ["nan".data, "none".data, "n/a".data] then
    (none, "no_name")
  else
    match clean_url website with
    | some u =>
      if is_social_media_url u then (none, "social_media")
      else determine_qualification (env.quality u) (env.maps bd) bd env.now
    | none =>
      determine_qualification (create_failed_analysis none) (env.maps bd) bd env.now

/-- The four per-category accumulators of `process_businesses_batch`
(source lines 1174-1177); a failed entry records the status string
(the source adds a wall-clock timestamp alongside it). -/
structure Buckets where
  results : List (Option DQResult)
  closed : List (Option DQResult)
  low_priority : List (Option DQResult)
  failed : List String
deriving DecidableEq

/-- Bucket routing of the completion loop of `process_businesses_batch`
(source lines 1197-1217): qualified and high-priority go to `results`,
closed and low-priority to their buckets, and any other completion whose
result is `None` is appended to `failed` with its status as the reason. -/
def route (acc : Buckets) (r : Option DQResult × String) : Buckets :=
  if r.2 = "qualified" then { acc with results := acc.results ++ [r.1] }
  else if r.2 = "high_priority" then { acc with results := acc.results ++ [r.1] }
  else if r.2 = "closed" then { acc with closed := acc.closed ++ [r.1] }
  else if r.2 = "low_priority" then { acc with low_priority := acc.low_priority ++ [r.1] }
  else if r.1 = none then { acc with failed := acc.failed ++ [r.2] }
  else acc

/-- Shallow embedding of `process_businesses_batch` (source lines
1150-1221).  Tasks complete in an unspecified order (`as_completed`); only
the bucket contents up to ordering, and in particular all bucket counts,
are order-independent, and the claims below only concern counts. -/
def process_businesses_batch (env : Env) (cm : ColumnMapping)
    (businesses : List BusinessData) : Buckets :=
  businesses.foldl (fun acc bd => route acc (process_business env cm bd)) ⟨[], [], [], []⟩

/-- Total number of entries collected across the four buckets. -/
def outcomeCount (b : Buckets) : ℕ :=
  b.results.length + b.closed.length + b.low_priority.length + b.failed.length

/-- A record is rejected at intake when its processing ends in one of the
three no-result statuses of spec §7(a) / §4.6 step 1. -/
def isIntakeRejected (env : Env) (cm : ColumnMapping) (bd : BusinessData) : Bool :=
  let s := (process_business env cm bd).2
  s == "no_name" || s == "social_media" || s == "not_accessible"

/-- Number of records that survive intake. -/
def survivorCount (env : Env) (cm : ColumnMapping) (bs : List BusinessData) : ℕ :=
  (bs.filter (fun bd => !isIntakeRejected env cm bd)).length

/-- Number of records rejected at intake. -/
def rejectedCount (env : Env) (cm : ColumnMapping) (bs : List BusinessData) : ℕ :=
  (bs.filter (fun bd => isIntakeRejected env cm bd)).length

/-- Shallow embedding of `save_progress` (source lines 1131-1147): returns
the checkpoint files written for the given accumulated buckets.  The
`timestamp` argument models the `datetime.now()` stamp of the source. -/
def save_progress {α β : Type} (results closed : List α) (failed : List β)
    (low_priority : List α) (batch_num : ℕ) (timestamp : String) : List String :=
  (if !results.isEmpty then
    ["output/progress_qualified_batch_" ++ toString batch_num ++ "_" ++
      timestamp ++ ".csv"] else []) ++
  (if !closed.isEmpty then
    ["output/progress_closed_batch_" ++ toString batch_num ++ "_" ++
      timestamp ++ ".csv"] else []) ++
  (if !low_priority.isEmpty then
    ["output/progress_lowpriority_batch_" ++ toString batch_num ++ "_" ++
      timestamp ++ ".csv"] else [])

/-- Checkpoint cadence of `main` (source line 1311): flush every 3 batches. -/
def checkpoint_due (batch_num : ℕ) : Bool := batch_num % 3 == 0

/-- Concrete presence result: found and active with high confidence. -/
def mr0 : MapsResult :=
  { found := true, appears_active := true, confidence := "high",
    google_maps_url := some "https://www.google.com/maps/place/acme",
    result_count := 1, is_closed := false }

/-- Concrete input record. -/
def bd0 : BusinessData := [("Business Name", "Acme Plumbing"), ("Website", "acme.com")]

/-- Concrete environment whose presence search finds nothing. -/
def envNone : Env :=
  { maps := fun _ => evalMapsPage 0 [] "",
    quality := fun _ => create_failed_analysis none,
    now := "2024-05-01 12:00:00" }

/-- Concrete resolved column mapping. -/
def cm0 : ColumnMapping :=
  { business_name := "Business Name", website := some "Website", city := none }

/-- Concrete accessible quality report reaching the qualified branch. -/
def wa0 : WebsiteAnalysis :=
  { accessible := true, mobile_responsive := true, mobile_score := 8,
    modern_design := true, design_score := 7, has_ssl := true, security_score := 10,
    performance_score := 6, content_score := 5, seo_score := 4,
    technology_stack := "WordPress", overall_score := 6.6,
    last_updated := some "01/15/2024 10:00:00", load_time := some 2,
    page_size := some "Unknown", error := none,
    detailed_issues := "Content: Limited content" }

/-- Concrete accessible quality report without SSL. -/
def waNoSsl : WebsiteAnalysis :=
  { accessible := true, mobile_responsive := true, mobile_score := 8,
    modern_design := true, design_score := 7, has_ssl := false, security_score := 0,
    performance_score := 6, content_score := 5, seo_score := 4,
    technology_stack := "Custom/Unknown", overall_score := 8.2,
    last_updated := some "01/15/2024 10:00:00", load_time := some 2,
    page_size := some "Unknown", error := none,
    detailed_issues := "Security: No SSL certificate" }

/-- Concrete accessible quality report with composite 8.5 and mobile 9. -/
def wa85 : WebsiteAnalysis :=
  { accessible := true, mobile_responsive := true, mobile_score := 9,
    modern_design := true, design_score := 9, has_ssl := true, security_score := 10,
    performance_score := 8, content_score := 8, seo_score := 8,
    technology_stack := "Custom/Unknown", overall_score := 8.5,
    last_updated := some "01/15/2024 10:00:00", load_time := some 1,
    page_size := some "Unknown", error := none, detailed_issues := "" }

/-- C9: the claim says every periodic checkpoint flush persists partial
dumps of all four Outcome buckets.  In fact `save_progress`, called every
3 batches, writes only the qualified, closed and low-priority dumps: with
all four buckets nonempty exactly three files are produced, and no call
can ever write more than three, so the failed bucket is never
checkpointed.  This contradicts the source's own docstring ("progress
saving with all categories") and its unused `failed` parameter: a code
bug. -/
theorem C9_checkpoint_omits_failed_bucket :
    save_progress ["q"] ["c"] ["f"] ["l"] 3 "20240101_000000" =
      ["output/progress_qualified_batch_3_20240101_000000.csv",
       "output/progress_closed_batch_3_20240101_000000.csv",
       "output/progress_lowpriority_batch_3_20240101_000000.csv"] ∧
    checkpoint_due 3 = true ∧
    (∀ (a b : List String) (f : List String) (lp : List String) (n : ℕ) (ts : String),
      (save_progress a b f lp n ts).length ≤ 3) := by
  refine ⟨by decide, by decide, ?_⟩
  intro a b f lp n ts
  unfold save_progress
  split_ifs <;> simp

/-- C3: for every quality report with `has_ssl = false` that reaches the
score-based derivation (site accessible, business not flagged closed), and
for all other sub-scores and flags, the record is qualified with final
priority HIGH — the missing-SSL escalation is absolute and cannot be
undone by the later escalation rules. -/
theorem C3_missing_ssl_forces_high (wa : WebsiteAnalysis) (mr : MapsResult)
    (bd : BusinessData) (now : String)
    (hacc : wa.accessible = true)
    (hnc : mr.found = true → mr.appears_active = true)
    (hssl : wa.has_ssl = false) :
    (determine_qualification wa mr bd now).2 = "qualified" ∧
    ((determine_qualification wa mr bd now).1.bind DQResult.priorityOf) = some "HIGH" := by
  have h2 : (mr.found && !mr.appears_active) = false := by
    cases hf : mr.found with
    | false => simp
    | true => simp [hnc hf]
  have hesc : escalate_priority wa (base_priority wa.overall_score).1 = "HIGH" := by
    unfold escalate_priority
    simp [hssl]
  unfold determine_qualification
  simp [hacc, h2, hesc, DQResult.priorityOf, qualFields]

theorem C3ssl_witness :
    waNoSsl.accessible = true ∧ waNoSsl.has_ssl = false ∧
    (mr0.found = true → mr0.appears_active = true) ∧
    ((determine_qualification waNoSsl mr0 bd0 "2024-05-01 12:00:00").2 = "qualified" ∧
     ((determine_qualification waNoSsl mr0 bd0 "2024-05-01 12:00:00").1.bind
        DQResult.priorityOf) = some "HIGH") :=
  ⟨rfl, rfl, fun _ => rfl,
   C3_missing_ssl_forces_high waNoSsl mr0 bd0 "2024-05-01 12:00:00" rfl (fun _ => rfl) rfl⟩

/-- C7: for every business whose place-search result page text contains
"permanently closed" (so, with at least one result element, the presence
result has found = true and appears-active = false), the classifier
produces exactly the single Closed outcome, regardless of the website's
quality report. -/
theorem C7_permanently_closed (n : ℕ) (pageText : Str) (pageUrl : String)
    (wa : WebsiteAnalysis) (bd : BusinessData) (now : String)
    (hn : 0 < n)
    (hclosed : containsL (lowerL pageText) "permanently closed".data = true) :
    determine_qualification wa (evalMapsPage n pageText pageUrl) bd now =
      (some (DQResult.closedRes bd "closed" "Appears closed on Google Maps"), "closed") := by
  have hmr : (evalMapsPage n pageText pageUrl).found = true ∧
      (evalMapsPage n pageText pageUrl).appears_active = false := by
    unfold evalMapsPage
    rw [if_neg (Nat.pos_iff_ne_zero.mp hn)]
    constructor
    · rfl
    · show (!closedIndicators.any _ && _) = false
      simp [closedIndicators, hclosed]
  unfold determine_qualification
  simp [hmr.1, hmr.2]

theorem C7closed_witness :
    0 < 1 ∧
    containsL (lowerL "Acme Plumbing - Permanently Closed".data)
      "permanently closed".data = true ∧
    determine_qualification wa0
        (evalMapsPage 1 "Acme Plumbing - Permanently Closed".data
          "https://www.google.com/maps/search/acme") bd0 "2024-05-01 12:00:00" =
      (some (DQResult.closedRes bd0 "closed" "Appears closed on Google Maps"), "closed") :=
  ⟨by decide, by decide,
   C7_permanently_closed 1 "Acme Plumbing - Permanently Closed".data
     "https://www.google.com/maps/search/acme" wa0 bd0 "2024-05-01 12:00:00"
     (by decide) (by decide)⟩

/-- Evaluation of the classifier on the concrete qualified-branch inputs. -/
lemma dq_wa0 (t : String) : determine_qualification wa0 mr0 bd0 t =
    (some (DQResult.qualifiedRes (qualFields wa0 mr0 bd0 t)), "qualified") := by
  unfold determine_qualification
  rw [if_neg (by decide), if_neg (by decide), if_neg (by decide),
      if_pos (Or.inr (Or.inr (by norm_num [wa0])))]

/-- C2 counterexample: the claim that identical (quality report, presence
result, business record) inputs always yield an identical Outcome fails on
the code: `determine_qualification` stamps `datetime.now()` into the
qualified result as `analysis_date`, so two calls with identical
three-argument inputs at different clock readings return different
Outcome records. -/
theorem C2_counterexample :
    determine_qualification wa0 mr0 bd0 "2024-05-01 12:00:00" ≠
      determine_qualification wa0 mr0 bd0 "2024-05-01 12:00:01" := by
  intro h
  have h2 := congrArg (fun r => r.1.bind DQResult.analysisDateOf) h
  rw [dq_wa0, dq_wa0] at h2
  simp only [Option.some_bind, DQResult.analysisDateOf, qualFields] at h2
  exact absurd h2 (by decide)

/-- C2 amended: the classifier is deterministic in everything except the
embedded timestamp — identical three-argument inputs always yield the same
status and the same priority, the whole Outcome is identical whenever the
status is not "qualified", every status is one of the five possible ones,
and no result is returned exactly for the "not_accessible" rejection, so
every produced Outcome belongs to exactly one category. -/
theorem C2_amended_determinism (wa : WebsiteAnalysis) (mr : MapsResult)
    (bd : BusinessData) (now nowB : String) :
    (determine_qualification wa mr bd now).2 = (determine_qualification wa mr bd nowB).2 ∧
    ((determine_qualification wa mr bd now).1.bind DQResult.priorityOf =
      (determine_qualification wa mr bd nowB).1.bind DQResult.priorityOf) ∧
    ((determine_qualification wa mr bd now).2 ≠ "qualified" →
      determine_qualification wa mr bd now = determine_qualification wa mr bd nowB) ∧
    ((determine_qualification wa mr bd now).2 ∈
      ["not_accessible", "closed", "high_priority", "qualified", "low_priority"]) ∧
    ((determine_qualification wa mr bd now).1 = none ↔
      (determine_qualification wa mr bd now).2 = "not_accessible") := by
  unfold determine_qualification
  split_ifs <;> simp_all [DQResult.priorityOf, qualFields]

/-- Reduction of the classifier to the score-based branch. -/
lemma dq_score_status (wa : WebsiteAnalysis) (mr : MapsResult) (bd : BusinessData)
    (now : String) (hacc : wa.accessible = true)
    (hnc : mr.found = true → mr.appears_active = true) :
    (determine_qualification wa mr bd now).2 =
      if escalate_priority wa (base_priority wa.overall_score).1 = "HIGH" ∨
         escalate_priority wa (base_priority wa.overall_score).1 = "MEDIUM" ∨
         wa.overall_score ≤ 7 then "qualified" else "low_priority" := by
  have h2 : (mr.found && !mr.appears_active) = false := by
    cases hf : mr.found with
    | false => simp
    | true => simp [hnc hf]
  unfold determine_qualification
  rw [if_neg (by simp [hacc]), if_neg (by simp [h2]), if_neg (by simp [hacc])]
  by_cases hc : escalate_priority wa (base_priority wa.overall_score).1 = "HIGH" ∨
      escalate_priority wa (base_priority wa.overall_score).1 = "MEDIUM" ∨
      wa.overall_score ≤ 7
  · rw [if_pos hc, if_pos hc]
  · rw [if_neg hc, if_neg hc]

/-- Escalated priority on the 8.5-composite fixture. -/
lemma esc_wa85 : escalate_priority wa85 (base_priority wa85.overall_score).1 =
    "VERY_LOW" := by
  have hbp : (base_priority wa85.overall_score).1 = "VERY_LOW" := by
    show (base_priority (8.5:ℚ)).1 = _
    unfold base_priority
    rw [if_neg (by norm_num), if_neg (by norm_num), if_neg (by norm_num)]
  rw [hbp]
  decide

/-- C8: in the score-based branch, the base priority follows the
thresholds composite ≤ 4 → HIGH, ≤ 6 → MEDIUM, ≤ 7.5 → LOW, else
VERY_LOW; after the escalations, the record is qualified iff the final
priority is HIGH or MEDIUM or the composite is at most 7, and otherwise
becomes low-priority; in particular the reachable HTTPS fixture with
composite 8.5 and mobile sub-score 9 yields low_priority, not
qualified. -/
theorem C8_score_priority (wa : WebsiteAnalysis) (mr : MapsResult) (bd : BusinessData)
    (now : String) (hacc : wa.accessible = true)
    (hnc : mr.found = true → mr.appears_active = true) :
    ((wa.overall_score ≤ 4 → (base_priority wa.overall_score).1 = "HIGH") ∧
     (4 < wa.overall_score → wa.overall_score ≤ 6 →
        (base_priority wa.overall_score).1 = "MEDIUM") ∧
     (6 < wa.overall_score → wa.overall_score ≤ 7.5 →
        (base_priority wa.overall_score).1 = "LOW") ∧
     (7.5 < wa.overall_score → (base_priority wa.overall_score).1 = "VERY_LOW")) ∧
    ((determine_qualification wa mr bd now).2 = "qualified" ↔
      (escalate_priority wa (base_priority wa.overall_score).1 = "HIGH" ∨
       escalate_priority wa (base_priority wa.overall_score).1 = "MEDIUM" ∨
       wa.overall_score ≤ 7)) ∧
    ((determine_qualification wa mr bd now).2 = "low_priority" ↔
      ¬ (escalate_priority wa (base_priority wa.overall_score).1 = "HIGH" ∨
         escalate_priority wa (base_priority wa.overall_score).1 = "MEDIUM" ∨
         wa.overall_score ≤ 7)) ∧
    (determine_qualification wa85 mr0 bd0 now).2 = "low_priority" := by
  have hcond85 : ¬ (escalate_priority wa85 (base_priority wa85.overall_score).1 = "HIGH" ∨
      escalate_priority wa85 (base_priority wa85.overall_score).1 = "MEDIUM" ∨
      wa85.overall_score ≤ 7) := by
    rw [esc_wa85]
    rintro (h | h | h)
    · exact absurd h (by decide)
    · exact absurd h (by decide)
    · revert h
      show ¬ (wa85.overall_score ≤ 7)
      norm_num [wa85]
  refine ⟨⟨?_, ?_, ?_, ?_⟩, ?_, ?_, ?_⟩
  · intro h; unfold base_priority; rw [if_pos h]
  · intro h1 h2; unfold base_priority; rw [if_neg (by linarith), if_pos h2]
  · intro h1 h2; unfold base_priority
    rw [if_neg (by linarith), if_neg (by linarith), if_pos h2]
  · intro h1; unfold base_priority
    rw [if_neg (by linarith), if_neg (by linarith), if_neg (by linarith)]
  · rw [dq_score_status wa mr bd now hacc hnc]
    by_cases hc : escalate_priority wa (base_priority wa.overall_score).1 = "HIGH" ∨
        escalate_priority wa (base_priority wa.overall_score).1 = "MEDIUM" ∨
        wa.overall_score ≤ 7
    · simp [hc]
    · simp [hc]
  · rw [dq_score_status wa mr bd now hacc hnc]
    by_cases hc : escalate_priority wa (base_priority wa.overall_score).1 = "HIGH" ∨
        escalate_priority wa (base_priority wa.overall_score).1 = "MEDIUM" ∨
        wa.overall_score ≤ 7
    · simp [hc]
    · simp [hc]
  · rw [dq_score_status wa85 mr0 bd0 now rfl (fun _ => rfl), if_neg hcond85]

theorem C8_score_priority_witness :
    wa85.accessible = true ∧ (mr0.found = true → mr0.appears_active = true) ∧
    (determine_qualification wa85 mr0 bd0 "2024-05-01 12:00:00").2 = "low_priority" :=
  ⟨rfl, fun _ => rfl,
   (C8_score_priority wa85 mr0 bd0 "2024-05-01 12:00:00" rfl (fun _ => rfl)).2.2.2⟩

/-- Lower bound of banker's rounding. -/
lemma roundHalfEven_nonneg {q : ℚ} (h : 0 ≤ q) : 0 ≤ roundHalfEven q := by
  unfold roundHalfEven
  have hf : (0:ℤ) ≤ ⌊q⌋ := Int.floor_nonneg.mpr h
  split_ifs <;> omega

/-- Upper bound of banker's rounding by any integer bound. -/
lemma roundHalfEven_le_of_le {q : ℚ} {n : ℤ} (h : q ≤ (n:ℚ)) : roundHalfEven q ≤ n := by
  have hfn : ⌊q⌋ ≤ n := by
    have h2 := Int.floor_le_floor h
    rwa [Int.floor_intCast] at h2
  unfold roundHalfEven
  split_ifs with h1 h2 h3
  · exact hfn
  · have h12 : (1:ℚ)/2 ≤ q - ⌊q⌋ := le_of_not_lt h1
    have hfl : (⌊q⌋:ℚ) + 1/2 ≤ q := by linarith
    have hq : (⌊q⌋:ℚ) < (n:ℚ) := by linarith
    have hlt : ⌊q⌋ < n := by exact_mod_cast hq
    omega
  · exact hfn
  · have h12 : (1:ℚ)/2 ≤ q - ⌊q⌋ := le_of_not_lt h1
    have hq : (⌊q⌋:ℚ) < (n:ℚ) := by linarith
    have hlt : ⌊q⌋ < n := by exact_mod_cast hq
    omega

/-- One-decimal rounding preserves nonnegativity. -/
lemma pyRound1_nonneg {q : ℚ} (h : 0 ≤ q) : 0 ≤ pyRound1 q := by
  unfold pyRound1
  have h1 : (0:ℤ) ≤ roundHalfEven (q * 10) := roundHalfEven_nonneg (by linarith)
  have h2 : (0:ℚ) ≤ (roundHalfEven (q * 10) : ℚ) := by exact_mod_cast h1
  linarith

/-- One-decimal rounding preserves the bound 10. -/
lemma pyRound1_le_ten {q : ℚ} (h : q ≤ 10) : pyRound1 q ≤ 10 := by
  unfold pyRound1
  have h1 : roundHalfEven (q * 10) ≤ (100:ℤ) := by
    apply roundHalfEven_le_of_le
    push_cast
    linarith
  have h2 : ((roundHalfEven (q * 10)):ℚ) ≤ 100 := by exact_mod_cast h1
  linarith

/-- C4: for all six dimension sub-scores in [0, 10], the composite equals
the weighted sum with weights mobile 0.25, design 0.20, security 0.15,
performance 0.15, content 0.15, seo 0.10 (summing to 1) rounded to one
decimal, and the result lies in [0, 10]. -/
theorem C4_overall_score_weighted (m d s p c o : ℚ)
    (hm0 : 0 ≤ m) (hm1 : m ≤ 10) (hd0 : 0 ≤ d) (hd1 : d ≤ 10)
    (hs0 : 0 ≤ s) (hs1 : s ≤ 10) (hp0 : 0 ≤ p) (hp1 : p ≤ 10)
    (hc0 : 0 ≤ c) (hc1 : c ≤ 10) (ho0 : 0 ≤ o) (ho1 : o ≤ 10) :
    calculate_overall_score m d s p c o =
      pyRound1 (m * (25/100) + d * (20/100) + s * (15/100) + p * (15/100) +
                c * (15/100) + o * (10/100)) ∧
    ((25:ℚ)/100 + 20/100 + 15/100 + 15/100 + 15/100 + 10/100) = 1 ∧
    0 ≤ calculate_overall_score m d s p c o ∧
    calculate_overall_score m d s p c o ≤ 10 := by
  refine ⟨rfl, by norm_num, ?_, ?_⟩
  · apply pyRound1_nonneg
    linarith
  · apply pyRound1_le_ten
    linarith

theorem C4_overall_score_weighted_witness :
    ((0:ℚ) ≤ 8 ∧ (8:ℚ) ≤ 10 ∧ (0:ℚ) ≤ 7 ∧ (7:ℚ) ≤ 10 ∧ (0:ℚ) ≤ 10 ∧ (10:ℚ) ≤ 10 ∧
     (0:ℚ) ≤ 6 ∧ (6:ℚ) ≤ 10 ∧ (0:ℚ) ≤ 5 ∧ (5:ℚ) ≤ 10 ∧ (0:ℚ) ≤ 4 ∧ (4:ℚ) ≤ 10) ∧
    0 ≤ calculate_overall_score 8 7 10 6 5 4 ∧
    calculate_overall_score 8 7 10 6 5 4 ≤ 10 :=
  ⟨by norm_num,
   (C4_overall_score_weighted 8 7 10 6 5 4 (by norm_num) (by norm_num) (by norm_num)
     (by norm_num) (by norm_num) (by norm_num) (by norm_num) (by norm_num)
     (by norm_num) (by norm_num) (by norm_num) (by norm_num)).2.2⟩

/-- Concrete record whose only link is a social profile. -/
def bdSocial : BusinessData :=
  [("Business Name", "Acme Plumbing"), ("Website", "facebook.com/acmeplumbing")]

/-- C6: every address containing one of the fixed social/listing platform
domains (case-insensitively) is classified as a social-media URL, concrete
social hosts are accepted while a plain business domain is rejected, and a
record whose only link is such a profile is filtered out by
`process_business` before any probing, with no Outcome. -/
theorem C6_domain_classifier :
    (∀ (url : String) (p : Str), p ∈ SOCIAL_MEDIA_PATTERNS →
      containsL (lowerL url.data) p = true → is_social_media_url url = true) ∧
    is_social_media_url "https://www.facebook.com/mybusiness" = true ∧
    is_social_media_url "https://YELP.com/biz/acme" = true ∧
    is_social_media_url "https://acmeplumbing.com" = false ∧
    process_business envNone cm0 bdSocial = (none, "social_media") := by
  refine ⟨?_, by decide, by decide, by decide, by decide⟩
  intro url p hp hc
  unfold is_social_media_url
  exact List.any_eq_true.mpr ⟨p, hp, hc⟩

theorem C6_domain_classifier_witness :
    ("linkedin.com".data ∈ SOCIAL_MEDIA_PATTERNS ∧
     containsL (lowerL "https://LinkedIn.com/company/acme".data)
       "linkedin.com".data = true) ∧
    is_social_media_url "https://LinkedIn.com/company/acme" = true :=
  ⟨⟨by decide, by decide⟩,
   C6_domain_classifier.1 "https://LinkedIn.com/company/acme" "linkedin.com".data
     (by decide) (by decide)⟩

/-- Concrete record with no usable business name. -/
def bdNoName : BusinessData := [("Business Name", "")]

/-- C1 counterexample: a record rejected at intake is not dropped
silently.  For a one-row input whose record has no usable business name,
the batch loop appends a failed entry carrying the rejection status, so
the four buckets hold 1 entry while there are 0 survivors: the claimed
equation "outcomes = survivors" fails, as does "rejected + outcomes =
total rows" (1 + 1 ≠ 1). -/
theorem C1_counterexample :
    outcomeCount (process_businesses_batch envNone cm0 [bdNoName]) = 1 ∧
    survivorCount envNone cm0 [bdNoName] = 0 ∧
    rejectedCount envNone cm0 [bdNoName] = 1 ∧
    (process_businesses_batch envNone cm0 [bdNoName]).failed = ["no_name"] ∧
    ¬ (outcomeCount (process_businesses_batch envNone cm0 [bdNoName]) =
        survivorCount envNone cm0 [bdNoName]) ∧
    ¬ (rejectedCount envNone cm0 [bdNoName] +
        outcomeCount (process_businesses_batch envNone cm0 [bdNoName]) = 1) := by
  decide

/-- Every classifier return is one of the four bucketed statuses or carries
no result. -/
lemma dq_status_or_none (wa : WebsiteAnalysis) (mr : MapsResult) (bd : BusinessData)
    (now : String) :
    (determine_qualification wa mr bd now).2 = "qualified" ∨
    (determine_qualification wa mr bd now).2 = "high_priority" ∨
    (determine_qualification wa mr bd now).2 = "closed" ∨
    (determine_qualification wa mr bd now).2 = "low_priority" ∨
    (determine_qualification wa mr bd now).1 = none := by
  unfold determine_qualification
  split_ifs <;> simp

/-- Every slot completion is one of the four bucketed statuses or carries
no result. -/
lemma process_business_status_or_none (env : Env) (cm : ColumnMapping)
    (bd : BusinessData) :
    (process_business env cm bd).2 = "qualified" ∨
    (process_business env cm bd).2 = "high_priority" ∨
    (process_business env cm bd).2 = "closed" ∨
    (process_business env cm bd).2 = "low_priority" ∨
    (process_business env cm bd).1 = none := by
  unfold process_business
  by_cases h1 : stripL (bget bd cm.business_name "").data = [] ∨
      lowerL (stripL (bget bd cm.business_name "").data) ∈
        ["nan".data, "none".data, "n/a".data]
  · rw [if_pos h1]
    simp
  · rw [if_neg h1]
    cases hcu : clean_url ⟨stripL (bget bd (cm.website.getD "") "").data⟩ with
    | none => exact dq_status_or_none _ _ _ _
    | some u =>
      by_cases hs : is_social_media_url u
      · simp [hs]
      · simp only [hs, Bool.false_eq_true, if_false]
        exact dq_status_or_none _ _ _ _

/-- Routing any such completion grows the total bucket count by one. -/
lemma outcomeCount_route (acc : Buckets) (r : Option DQResult × String)
    (h : r.2 = "qualified" ∨ r.2 = "high_priority" ∨ r.2 = "closed" ∨
         r.2 = "low_priority" ∨ r.1 = none) :
    outcomeCount (route acc r) = outcomeCount acc + 1 := by
  unfold route outcomeCount
  split_ifs <;> simp_all <;> omega

/-- Folding the batch loop counts one bucket entry per input record. -/
lemma outcomeCount_foldl (env : Env) (cm : ColumnMapping) :
    ∀ (bs : List BusinessData) (acc : Buckets),
      outcomeCount (bs.foldl (fun a bd => route a (process_business env cm bd)) acc) =
        outcomeCount acc + bs.length := by
  intro bs
  induction bs with
  | nil => intro acc; simp
  | cons b t ih =>
    intro acc
    rw [List.foldl_cons, ih,
      outcomeCount_route acc _ (process_business_status_or_none env cm b)]
    simp [List.length_cons]
    omega

/-- Filtering a list by a boolean predicate and by its negation partitions it. -/
lemma length_filter_not_add_length_filter {α : Type} (p : α → Bool) (l : List α) :
    (l.filter (fun a => !p a)).length + (l.filter p).length = l.length := by
  induction l with
  | nil => rfl
  | cons a t ih =>
    by_cases h : p a <;> simp [List.filter_cons, h] <;> omega

/-- C1 amended: for every environment, column mapping and input list, the
four buckets (qualified + closed + low-priority + failed) receive exactly
one entry per input record — rejected records land in the failed bucket
rather than producing no Outcome — so the bucket total equals the total
number of input rows, which is also survivors + rejected. -/
theorem C1_amended_accounting (env : Env) (cm : ColumnMapping)
    (bs : List BusinessData) :
    outcomeCount (process_businesses_batch env cm bs) = bs.length ∧
    survivorCount env cm bs + rejectedCount env cm bs = bs.length := by
  constructor
  · unfold process_businesses_batch
    rw [outcomeCount_foldl]
    simp [outcomeCount]
  · exact length_filter_not_add_length_filter (isIntakeRejected env cm) bs

/-- A list is a Boolean prefix of itself followed by anything. -/
lemma isPre_append_self (p t : Str) : isPre p (p ++ t) = true := by
  induction p with
  | nil => rfl
  | cons c cs ih => simp [isPre, List.cons_append, ih]

/-- Characterization of the Boolean prefix test. -/
lemma isPre_iff_exists {p s : Str} : isPre p s = true ↔ ∃ t, s = p ++ t := by
  induction p generalizing s with
  | nil => simp [isPre]
  | cons c cs ih =>
    cases s with
    | nil => simp [isPre]
    | cons a ss =>
      simp only [isPre, Bool.and_eq_true, beq_iff_eq, ih, List.cons_append,
        List.cons.injEq]
      constructor
      · rintro ⟨rfl, t, rfl⟩
        exact ⟨t, rfl, rfl⟩
      · rintro ⟨t, rfl, rfl⟩
        exact ⟨rfl, t, rfl⟩

/-- Substring search ignores a removed head when the search fails. -/
lemma containsL_tail_false {c : Char} {t pat : Str}
    (h : containsL (c :: t) pat = false) : containsL t pat = false := by
  simp only [containsL, Bool.or_eq_false_iff] at h
  exact h.2

/-- A failed substring search stays failed on any suffix. -/
lemma containsL_drop_false {l pat : Str} (h : containsL l pat = false) :
    ∀ n, containsL (l.drop n) pat = false := by
  induction l with
  | nil => intro n; simpa using h
  | cons c t ih =>
    intro n
    cases n with
    | zero => simpa using h
    | succ m =>
      rw [List.drop_succ_cons]
      exact ih (containsL_tail_false h) m

/-- Prepending characters that cannot start the pattern does not change a
substring search. -/
lemma containsL_append_skip {pre t : Str} {p : Char} {ps : Str}
    (h : ∀ c ∈ pre, (p == c) = false) :
    containsL (pre ++ t) (p :: ps) = containsL t (p :: ps) := by
  induction pre with
  | nil => rfl
  | cons c cs ih =>
    have hc : (p == c) = false := h c (List.mem_cons_self c cs)
    simp only [List.cons_append, containsL, isPre, hc, Bool.false_and, Bool.false_or]
    exact ih (fun x hx => h x (List.mem_cons_of_mem _ hx))

/-- Case folding distributes over append. -/
lemma lowerL_append (a b : Str) : lowerL (a ++ b) = lowerL a ++ lowerL b :=
  List.map_append _ a b

/-- Case folding commutes with dropping a prefix. -/
lemma lowerL_drop (l : Str) (n : ℕ) : lowerL (l.drop n) = (lowerL l).drop n :=
  List.map_drop _ l n

/-- Dropping a prefix keeps the last element of a nonempty remainder. -/
lemma getLast?_drop_of_ne_nil {l : Str} {n : ℕ} (h : l.drop n ≠ []) :
    (l.drop n).getLast? = l.getLast? := by
  induction n generalizing l with
  | zero => rfl
  | succ m ih =>
    cases l with
    | nil => simp at h
    | cons a t =>
      rw [List.drop_succ_cons] at h ⊢
      rw [ih h]
      have ht : t ≠ [] := by
        intro he
        rw [he] at h
        simp at h
      cases t with
      | nil => exact absurd rfl ht
      | cons b tb => exact (List.getLast?_cons_cons).symm ▸ rfl

/-- The head surviving a `dropWhile` fails the predicate. -/
lemma head?_dropWhile_false {p : Char → Bool} : ∀ {l : Str} {c : Char},
    (l.dropWhile p).head? = some c → p c = false := by
  intro l
  induction l with
  | nil => intro c h; simp at h
  | cons a t ih =>
    intro c h
    rw [List.dropWhile_cons] at h
    by_cases hpa : p a
    · rw [if_pos hpa] at h
      exact ih h
    · rw [if_neg hpa] at h
      simp only [List.head?_cons, Option.some.injEq] at h
      rw [← h]
      exact Bool.eq_false_iff.mpr hpa

/-- A list whose head fails the predicate is untouched by `dropWhile`. -/
lemma dropWhile_eq_self_of_head? {α : Type} {p : α → Bool} {l : List α}
    (h : ∀ c, l.head? = some c → p c = false) : l.dropWhile p = l := by
  cases l with
  | nil => rfl
  | cons a t =>
    rw [List.dropWhile_cons, if_neg]
    simp [h a rfl]

/-- Stripping leaves a string with non-whitespace first and last characters
unchanged. -/
lemma stripL_eq_self {l : Str}
    (h1 : ∀ c, l.head? = some c → Char.isWhitespace c = false)
    (h2 : ∀ c, l.getLast? = some c → Char.isWhitespace c = false) :
    stripL l = l := by
  unfold stripL
  rw [dropWhile_eq_self_of_head? h1]
  rw [dropWhile_eq_self_of_head? (by
    intro c hc
    apply h2
    rwa [List.head?_reverse] at hc)]
  exact List.reverse_reverse l

/-- The last character of a stripped string is not whitespace. -/
lemma stripL_getLast?_not_ws {l : Str} {c : Char} (h : (stripL l).getLast? = some c) :
    Char.isWhitespace c = false := by
  unfold stripL at h
  rw [List.getLast?_reverse] at h
  exact head?_dropWhile_false h

/-- The leading `www.`-removal is a prefix drop. -/
lemma cu_strip_www_drop (u : Str) : ∃ k, cu_strip_www u = u.drop k := by
  unfold cu_strip_www
  split_ifs
  · exact ⟨4, rfl⟩
  · exact ⟨0, rfl⟩

/-- The leading scheme-removal is a prefix drop. -/
lemma cu_strip_scheme_drop (u : Str) : ∃ k, cu_strip_scheme u = u.drop k := by
  unfold cu_strip_scheme
  split_ifs
  · exact ⟨7, rfl⟩
  · exact ⟨8, rfl⟩
  · exact ⟨0, rfl⟩

/-- The two prefix-removals compose to a prefix drop. -/
lemma strip_www_scheme_drop (u : Str) :
    ∃ k, cu_strip_scheme (cu_strip_www u) = u.drop k := by
  obtain ⟨k1, h1⟩ := cu_strip_www_drop u
  obtain ⟨k2, h2⟩ := cu_strip_scheme_drop (cu_strip_www u)
  refine ⟨k1 + k2, ?_⟩
  rw [h2, h1, List.drop_drop]

/-- The scheme-prefixing step yields an explicit scheme. -/
lemma cu_add_scheme_isPre (u : Str) :
    isPre "http://".data (cu_add_scheme u) = true ∨
    isPre "https://".data (cu_add_scheme u) = true := by
  unfold cu_add_scheme
  split_ifs with h
  · rcases Bool.or_eq_true_iff.mp h with h1 | h1
    · left; exact h1
    · right; exact h1
  · right; exact isPre_append_self _ _

/-- Inversion of the `urlparse`-based validation. -/
lemma cu_validate_some {x v : Str} (h : cu_validate x = some v) :
    v = x ∧ cu_netloc x ≠ [] ∧ (cu_netloc x).contains '.' = true ∧
    ¬ (lastDotLabel (cu_netloc x)).length < 2 ∧
    isAlphaStr (lastDotLabel (cu_netloc x)) = true := by
  unfold cu_validate at h
  split_ifs at h with h1 h2 h3 h4
  have hxv : x = v := by injection h
  subst hxv
  exact ⟨rfl, h1, by simpa using h2, h3, by simpa using h4⟩

/-- Inversion of the normalizer on success. -/
lemma clean_url_core_some {raw u : Str} (h : clean_url_core raw = some u) :
    u = cu_add_scheme (cu_strip_scheme (cu_strip_www (stripL raw))) ∧
    containsL (lowerL (stripL raw)) "mailto:".data = false ∧
    cu_validate u = some u := by
  unfold clean_url_core at h
  split_ifs at h with h1 h2 h3
  have hu := (cu_validate_some h).1
  refine ⟨hu, by simpa using h3, ?_⟩
  rw [hu] at h ⊢
  exact h

/-- Base priority on the no-SSL fixture. -/
lemma esc_waNoSsl : escalate_priority waNoSsl (base_priority waNoSsl.overall_score).1 =
    "HIGH" := by
  have hbp : (base_priority waNoSsl.overall_score).1 = "VERY_LOW" := by
    show (base_priority (8.2:ℚ)).1 = _
    unfold base_priority
    rw [if_neg (by norm_num), if_neg (by norm_num), if_neg (by norm_num)]
  rw [hbp]
  decide

/-- Evaluation of the classifier on the no-SSL fixture. -/
lemma dq_waNoSsl (t : String) : determine_qualification waNoSsl mr0 bd0 t =
    (some (DQResult.qualifiedRes (qualFields waNoSsl mr0 bd0 t)), "qualified") := by
  unfold determine_qualification
  rw [if_neg (by decide), if_neg (by decide), if_neg (by decide),
      if_pos (Or.inl esc_waNoSsl)]

/-- C10 counterexample: not every non-null URL produced by the normalizer
starts with "https://".  The doubled-scheme input
"https://http://example.com" normalizes to "http://example.com", for which
the security analysis reports has_ssl = false with score 0 and the
"No SSL certificate" issue — so the no-SSL escalation is not unreachable
for accessible sites. -/
theorem C10_counterexample :
    clean_url_core "https://http://example.com".data =
      some "http://example.com".data ∧
    isPre "https://".data "http://example.com".data = false ∧
    (analyze_security "http://example.com" false).has_ssl = false ∧
    (analyze_security "http://example.com" false).score = 0 ∧
    (analyze_security "http://example.com" false).issues = ["No SSL certificate"] := by
  decide

/-- C10 amended: every non-null output of the normalizer starts with
"http://" or "https://"; for every URL starting with "https://" the
security analysis reports has_ssl = true with score 10 minus the
mixed-content penalty; and for an accessible site whose cleaned URL kept
an "http://" scheme the no-SSL escalation fires, producing priority HIGH
with the "No SSL certificate" critical issue. -/
theorem C10_amended_scheme_and_ssl :
    (∀ raw u : Str, clean_url_core raw = some u →
      (isPre "http://".data u = true ∨ isPre "https://".data u = true)) ∧
    (∀ (u : String) (m : Bool), isPre "https://".data u.data = true →
      (analyze_security u m).has_ssl = true ∧
      (analyze_security u m).score = 10 - (if m then 3 else 0)) ∧
    (analyze_security "http://example.com" false).has_ssl = false ∧
    ((determine_qualification waNoSsl mr0 bd0 "2024-05-01 12:00:00").1.bind
        DQResult.priorityOf) = some "HIGH" ∧
    ((determine_qualification waNoSsl mr0 bd0 "2024-05-01 12:00:00").1.bind
        DQResult.criticalIssuesOf) = some "No SSL certificate" := by
  refine ⟨?_, ?_, by decide, ?_, ?_⟩
  · intro raw u h
    obtain ⟨hu, -, -⟩ := clean_url_core_some h
    rw [hu]
    exact cu_add_scheme_isPre _
  · intro u m h
    unfold analyze_security
    rw [h]
    cases m <;> simp
  · rw [dq_waNoSsl]
    simp [DQResult.priorityOf, qualFields, esc_waNoSsl]
  · rw [dq_waNoSsl]
    simp only [Option.some_bind, DQResult.criticalIssuesOf, qualFields]
    decide

theorem C10_amended_scheme_and_ssl_witness :
    (clean_url_core "foo.com".data = some "https://foo.com".data ∧
     (isPre "http://".data "https://foo.com".data = true ∨
      isPre "https://".data "https://foo.com".data = true)) ∧
    (isPre "https://".data "https://foo.com".data = true ∧
     (analyze_security "https://foo.com" true).has_ssl = true ∧
     (analyze_security "https://foo.com" true).score = 10 - (if true then 3 else 0)) :=
  ⟨⟨by decide,
    C10_amended_scheme_and_ssl.1 "foo.com".data "https://foo.com".data (by decide)⟩,
   ⟨by decide,
    C10_amended_scheme_and_ssl.2.1 "https://foo.com" true (by decide)⟩⟩

/-- C5 counterexample: the normalizer is not idempotent.  The input
"http://http://foo.com" normalizes to "http://foo.com" (only one leading
scheme is stripped and the startswith check then keeps "http://"); feeding
that output back yields "https://foo.com", not the output itself. -/
theorem C5_counterexample :
    clean_url "http://http://foo.com" = some "http://foo.com" ∧
    clean_url "http://foo.com" = some "https://foo.com" ∧
    clean_url "http://foo.com" ≠ some "http://foo.com" := by
  decide

/-- C5 amended: the normalizer (total by construction) is idempotent on
every output that starts with "https://": renormalizing such an output
returns it unchanged, so a valid "https://" prefix, once added, is never
removed.  Only outputs that kept an "http://" scheme (doubled-scheme
inputs) fail idempotence. -/
theorem C5_amended_idempotent_on_https (raw u : Str)
    (h : clean_url_core raw = some u)
    (hs : isPre "https://".data u = true) :
    clean_url_core u = some u := by
  obtain ⟨hu, hmailto, hval⟩ := clean_url_core_some h
  obtain ⟨k, hk⟩ := strip_www_scheme_drop (stripL raw)
  obtain ⟨t, ht⟩ := isPre_iff_exists.mp hs
  have hcons : u = 'h' :: ("ttps://".data ++ t) := by rw [ht]; rfl
  have hlow8 : lowerL u = "https://".data ++ lowerL t := by
    rw [ht, lowerL_append, show lowerL "https://".data = "https://".data from by decide]
  have hhead : ∀ c, u.head? = some c → Char.isWhitespace c = false := by
    intro c hc
    rw [hcons] at hc
    simp only [List.head?_cons, Option.some.injEq] at hc
    rw [← hc]
    decide
  have hu2 : ∀ c, (cu_strip_scheme (cu_strip_www (stripL raw))).getLast? = some c →
      Char.isWhitespace c = false := by
    intro c hc
    rw [hk] at hc
    have hne : (stripL raw).drop k ≠ [] := by
      intro he
      rw [he] at hc
      simp at hc
    rw [getLast?_drop_of_ne_nil hne] at hc
    exact stripL_getLast?_not_ws hc
  have hlast : ∀ c, u.getLast? = some c → Char.isWhitespace c = false := by
    intro c hc
    rw [hu] at hc
    unfold cu_add_scheme at hc
    split_ifs at hc with hsch
    · exact hu2 c hc
    · by_cases h2e : cu_strip_scheme (cu_strip_www (stripL raw)) = []
      · rw [h2e, List.append_nil] at hc
        rw [show ("https://".data).getLast? = some '/' from by decide] at hc
        simp only [Option.some.injEq] at hc
        rw [← hc]
        decide
      · rw [List.getLast?_append_of_ne_nil _ h2e] at hc
        exact hu2 c hc
  have hstrip : stripL u = u := stripL_eq_self hhead hlast
  have hph : ¬ (lowerL u ∈ cleanUrlPlaceholders) := by
    intro hmem
    have hlc : lowerL u = 'h' :: lowerL ("ttps://".data ++ t) := by rw [hcons]; rfl
    rw [hlc] at hmem
    simp only [cleanUrlPlaceholders, List.mem_cons, List.not_mem_nil, or_false] at hmem
    rcases hmem with hx | hx | hx | hx | hx
    · injection hx with h1 _
      exact absurd h1 (by decide)
    · injection hx with h1 _
      exact absurd h1 (by decide)
    · injection hx with h1 _
      exact absurd h1 (by decide)
    · injection hx with h1 _
      exact absurd h1 (by decide)
    · exact List.noConfusion hx
  have hcontains_u2 :
      containsL (lowerL (cu_strip_scheme (cu_strip_www (stripL raw))))
        "mailto:".data = false := by
    rw [hk, lowerL_drop]
    exact containsL_drop_false hmailto k
  have hmailto_u : containsL (lowerL u) "mailto:".data = false := by
    rw [hu]
    unfold cu_add_scheme
    split_ifs with hsch
    · exact hcontains_u2
    · rw [lowerL_append, show lowerL "https://".data = "https://".data from by decide,
        show ("mailto:").data = 'm' :: "ailto:".data from rfl,
        containsL_append_skip (by decide)]
      exact hcontains_u2
  have hwww : isPre "www.".data (lowerL u) = false := by
    rw [hlow8, show "www.".data = 'w' :: "ww.".data from rfl,
      show "https://".data ++ lowerL t = 'h' :: ("ttps://".data ++ lowerL t) from rfl]
    simp [isPre]
  have hhttp : isPre "http://".data (lowerL u) = false := by
    rw [hlow8,
      show "http://".data = 'h' :: 't' :: 't' :: 'p' :: ':' :: '/' :: '/' :: ([] : Str) from rfl,
      show "https://".data ++ lowerL t =
        'h' :: 't' :: 't' :: 'p' :: 's' :: ':' :: '/' :: '/' :: lowerL t from rfl]
    simp [isPre]
  have hhttps : isPre "https://".data (lowerL u) = true := by
    rw [hlow8]
    exact isPre_append_self _ _
  have hsw : cu_strip_www u = u := by
    unfold cu_strip_www
    rw [if_neg (by simp [hwww])]
  have hss : cu_strip_scheme u = u.drop 8 := by
    unfold cu_strip_scheme
    rw [if_neg (by simp [hhttp]), if_pos hhttps]
  have hdrop : u.drop 8 = t := by
    rw [ht]
    exact List.drop_left "https://".data t
  have hnet : cu_netloc u = t.takeWhile (fun c => !netlocStop c) := by
    unfold cu_netloc
    rw [if_pos hs, hdrop]
  have hdot := (cu_validate_some hval).2.2.1
  rw [hnet] at hdot
  have htk : ∀ x : Str, ("http://".data ++ x).takeWhile (fun c => !netlocStop c) =
      ['h','t','t','p',':'] := by
    intro x
    rw [show "http://".data ++ x = 'h' :: 't' :: 't' :: 'p' :: ':' :: '/' :: '/' :: x from rfl]
    simp [List.takeWhile_cons, netlocStop]
  have htks : ∀ x : Str, ("https://".data ++ x).takeWhile (fun c => !netlocStop c) =
      ['h','t','t','p','s',':'] := by
    intro x
    rw [show "https://".data ++ x = 'h' :: 't' :: 't' :: 'p' :: 's' :: ':' :: '/' :: '/' :: x from rfl]
    simp [List.takeWhile_cons, netlocStop]
  have hnothttp : isPre "http://".data t = false := by
    cases hb : isPre "http://".data t with
    | false => rfl
    | true =>
      obtain ⟨x, hx⟩ := isPre_iff_exists.mp hb
      rw [hx, htk x] at hdot
      exact absurd hdot (by decide)
  have hnothttps : isPre "https://".data t = false := by
    cases hb : isPre "https://".data t with
    | false => rfl
    | true =>
      obtain ⟨x, hx⟩ := isPre_iff_exists.mp hb
      rw [hx, htks x] at hdot
      exact absurd hdot (by decide)
  have hadd : cu_add_scheme t = "https://".data ++ t := by
    unfold cu_add_scheme
    rw [if_neg (by simp [hnothttp, hnothttps])]
  have hne : ¬ (u = []) := by
    rw [hcons]
    simp
  unfold clean_url_core
  rw [if_neg hne, hstrip, if_neg hph, if_neg (by simp [hmailto_u]), hsw, hss, hdrop,
    hadd, ← ht]
  exact hval

theorem C5_amended_idempotent_on_https_witness :
    (clean_url_core "www.foo.com".data = some "https://foo.com".data ∧
     isPre "https://".data "https://foo.com".data = true) ∧
    clean_url_core "https://foo.com".data = some "https://foo.com".data :=
  ⟨⟨by decide, by decide⟩,
   C5_amended_idempotent_on_https "www.foo.com".data "https://foo.com".data
     (by decide) (by decide)⟩

theorem C2_amended_determinism_witness :
    (determine_qualification wa0 mr0 bd0 "2024-05-01 12:00:00").2 =
      (determine_qualification wa0 mr0 bd0 "2024-05-01 12:00:01").2 ∧
    ((determine_qualification wa0 mr0 bd0 "2024-05-01 12:00:00").1.bind
        DQResult.priorityOf =
      (determine_qualification wa0 mr0 bd0 "2024-05-01 12:00:01").1.bind
        DQResult.priorityOf) :=
  ⟨(C2_amended_determinism wa0 mr0 bd0 "2024-05-01 12:00:00" "2024-05-01 12:00:01").1,
   (C2_amended_determinism wa0 mr0 bd0 "2024-05-01 12:00:00" "2024-05-01 12:00:01").2.1⟩

theorem C1_amended_accounting_witness :
    outcomeCount (process_businesses_batch envNone cm0 [bdNoName, bd0]) = 2 ∧
    survivorCount envNone cm0 [bdNoName, bd0] +
      rejectedCount envNone cm0 [bdNoName, bd0] = 2 :=
  C1_amended_accounting envNone cm0 [bdNoName, bd0]

theorem C9_checkpoint_omits_failed_bucket_witness :
    (save_progress ["q2"] ["c2"] (["f2"] : List String) ["l2"] 6 "TS").length ≤ 3 :=
  C9_checkpoint_omits_failed_bucket.2.2 ["q2"] ["c2"] ["f2"] ["l2"] 6 "TS"
